import Mathlib

/-
Verification development for the PDOT retrieval-augmented QA service
(src/main.py, the online query service) and its offline indexer
(src/indexar_pdot.py), shallowly embedded in Lean.

External collaborators (PDF loading, text splitting, embeddings, the
vector store's ranking, the LLM) are black boxes, modelled as function
parameters; the orchestration logic of the two Python files is embedded
faithfully.
-/

namespace PDOT

/-- A LangChain document/chunk: page content plus the two metadata keys the
indexer stamps (src/indexar_pdot.py lines 73-75). -/
structure Document where
  page_content : String
  fuente : Option String := none
  archivo_origen : Option String := none
deriving DecidableEq, Repr

/-- Request body of POST /extraer-contexto-pdot (src/main.py lines 14-16). -/
structure SolicitudContexto where
  pregunta : String
  entidad : String
deriving DecidableEq, Repr

/-- A raised Python exception, carrying its str(e) text. -/
structure PyError where
  msg : String
deriving DecidableEq, Repr

/-- Outcome of one request to the endpoint: a JSON body with a contexto
field, or an HTTPException with a status code and detail string. -/
inductive Respuesta where
  | ok (contexto : String)
  | httpError (status : Nat) (detail : String)
deriving DecidableEq, Repr

/-- Python truthiness of an os.getenv result: None and the empty string are
falsy, any other string is truthy. -/
def truthy : Option String → Bool
  | none => false
  | some s => !s.isEmpty

/-- Python str.lower(), acting character by character. -/
def pyLower (s : String) : String :=
  ⟨s.data.map Char.toLower⟩

/-- Python str.strip(): remove leading and trailing whitespace. -/
def pyStrip (s : String) : String :=
  ⟨((s.data.dropWhile Char.isWhitespace).reverse.dropWhile Char.isWhitespace).reverse⟩

/- ===================== Indexer: src/indexar_pdot.py ===================== -/

/-- The hard-coded label-to-filename map MAPA_DE_PDOTS
(src/indexar_pdot.py lines 20-26). -/
def MAPA_DE_PDOTS : List (String × String) :=
  [("paltas", "PDOT_Paltas.pdf"),
   ("pindal", "PDOT_Pindal.pdf"),
   ("catamayo", "PDyOT_Catamayo.pdf"),
   ("chaguarpamba", "PDyOT_Chaguarpamba.pdf")]

/-- One iteration of the indexing loop (src/indexar_pdot.py lines 46-78):
strip the filename; if the file is missing on disk or PyPDFLoader raises
(both modelled as fs returning none), print a warning and continue,
contributing no fragments; otherwise split the loaded pages and stamp each
fragment with the label as metadata fuente and the clean filename as
archivo_origen. fs models the filesystem plus loader, split models
RecursiveCharacterTextSplitter.split_documents. -/
def procesarEntrada (fs : String → Option (List Document))
    (split : List Document → List Document)
    (etiqueta nombre_archivo : String) : List Document :=
  let nombre_archivo_limpio := pyStrip nombre_archivo
  match fs nombre_archivo_limpio with
  | none => []
  | some documentos =>
      (split documentos).map fun frag =>
        { frag with fuente := some etiqueta, archivo_origen := some nombre_archivo_limpio }

/-- The accumulation of todos_los_fragmentos over the whole map
(src/indexar_pdot.py lines 41-78), in loop order. -/
def indexarFragmentos (fs : String → Option (List Document))
    (split : List Document → List Document) :
    List (String × String) → List Document
  | [] => []
  | (etiqueta, nombre) :: resto =>
      procesarEntrada fs split etiqueta nombre ++ indexarFragmentos fs split resto

/-- A whole indexer run (src/indexar_pdot.py). Input: the GOOGLE_API_KEY
environment value and the current on-disk store (some chunks, or none if
the directory does not exist). Output: the on-disk store after the run and
whether the run completed successfully. If the key is falsy the script
exits before touching the disk (lines 31-33). Otherwise FASE 0 removes any
existing store directory with shutil.rmtree BEFORE any input file is
examined (lines 36-39); if after the loop no fragment was produced the
script prints ERROR FATAL and exits, leaving no store on disk (lines
81-83); otherwise Chroma.from_documents writes exactly the collected
fragments as the new store (lines 97-101). -/
def runIndexer (googleKey : Option String)
    (fs : String → Option (List Document))
    (split : List Document → List Document)
    (disco : Option (List Document)) : Option (List Document) × Bool :=
  if !(truthy googleKey) then (disco, false)
  else
    let frags := indexarFragmentos fs split MAPA_DE_PDOTS
    if frags.isEmpty then (none, false)
    else (some frags, true)

/- ===================== Query service: src/main.py ===================== -/

/-- The fixed no-information message returned when the filtered search
finds no chunks (src/main.py line 88). -/
def mensajeSinInfo (entidad : String) : String :=
  "No se encontró información específica para la entidad '" ++ entidad ++
    "' sobre la consulta realizada."

/-- Normalisation of the entidad field (src/main.py line 65):
solicitud.entidad.lower().strip(). -/
def normalizar (entidad : String) : String :=
  pyStrip (pyLower entidad)

/-- The synthesis prompt f-string assigned to the local variable
prompt_sinitesis (src/main.py lines 93-105); note the variable name. -/
def plantillaPrompt (entidad pregunta contexto_bruto : String) : String :=
  "\n        Actúa como un analista técnico experto en el PDOT de la entidad: " ++ entidad ++
  ".\n        A continuación se te proporciona un texto en bruto extraído del documento de planificación de " ++ entidad ++
  " y una pregunta del usuario. \n        Tu tarea es sintetizar la información del texto en bruto para responder a la pregunta de forma clara y concisa.\n\n        PREGUNTA DEL USUARIO:\n        " ++ pregunta ++
  "\n\n        TEXTO EN BRUTO EXTRAÍDO (Fuente: " ++ entidad ++ "):\n        " ++ contexto_bruto ++
  "\n\n        RESPUESTA SINTETISADA (Enfocada en " ++ entidad ++ "):\n        "

/-- Python local-name lookup: reading a name that was never assigned raises
NameError with this message. -/
def lookupName (env : List (String × String)) (name : String) : Except PyError String :=
  match env.lookup name with
  | some v => Except.ok v
  | none => Except.error ⟨"name '" ++ name ++ "' is not defined"⟩

/-- The detail string of the HTTP 500 raised by the except block
(src/main.py lines 113-116): f-string of str(e), a newline and
traceback.format_exc(), whose result is modelled by format_exc. -/
def detalle500 (format_exc : PyError → String) (e : PyError) : String :=
  "Error interno del servidor: " ++ e.msg ++ "\n" ++ format_exc e

/-- The request handler extraer_contexto (src/main.py lines 61-116).
db models the global db: when loaded, its similarity_search method takes
the query, k and the fuente metadata filter and returns the matching
documents, or raises. llm models the global llm: invoke on a prompt
returning the response content. format_exc models
traceback.format_exc() at the except site. Control flow follows the
source: 503 if a component is None (lines 69-70), 400 if the normalised
entidad is empty (lines 72-73); then inside the try block the filtered
search (lines 80-84), the no-information early return (lines 86-88), the
prompt assembly binding the local prompt_sinitesis (lines 90-105), and the
call llm.invoke(prompt_sintesis) (line 108) which reads the never-assigned
name prompt_sintesis; any exception raised in the try block becomes an
HTTP 500 carrying the traceback (lines 113-116). -/
def extraer_contexto
    (db : Option (String → Nat → String → Except PyError (List Document)))
    (llm : Option (String → String))
    (format_exc : PyError → String)
    (solicitud : SolicitudContexto) : Respuesta :=
  let pregunta := solicitud.pregunta
  let entidad := normalizar solicitud.entidad
  match db, llm with
  | some similarity_search, some invoke =>
      if entidad = "" then
        Respuesta.httpError 400 "Error: El campo 'entidad' no puede estar vacío."
      else
        match similarity_search pregunta 10 entidad with
        | Except.error e => Respuesta.httpError 500 (detalle500 format_exc e)
        | Except.ok docs_relevantes =>
            if docs_relevantes.isEmpty then
              Respuesta.ok (mensajeSinInfo entidad)
            else
              let contexto_bruto :=
                String.intercalate "\n\n---\n\n" (docs_relevantes.map Document.page_content)
              let locals :=
                [("prompt_sinitesis", plantillaPrompt entidad pregunta contexto_bruto)]
              match lookupName locals "prompt_sintesis" with
              | Except.error e => Respuesta.httpError 500 (detalle500 format_exc e)
              | Except.ok prompt_sintesis => Respuesta.ok (invoke prompt_sintesis)
  | _, _ =>
      Respuesta.httpError 503 "Servicio no disponible: Los componentes de IA no están cargados."

/-- The startup event of the service (src/main.py lines 28-58): validate
both API keys under Python truthiness (line 34), then build the embeddings
(external), then require the database directory to exist (lines 42-43);
construction of the Chroma handle and the ChatOpenAI handle is external
and modelled as success. Any raised error is printed and re-raised, so an
error value is fatal for the server. -/
def startup_event (googleKey openaiKey : Option String) (dirExists : Bool) :
    Except String Unit :=
  if !(truthy googleKey && truthy openaiKey) then
    Except.error "!!! ERROR FATAL: Faltan claves (GOOGLE o OPENAI) en las variables de entorno."
  else if !dirExists then
    Except.error "!!! ERROR FATAL: No se encuentra el directorio 'db_pdot'. ¿Olvidaste subir la base de datos?"
  else
    Except.ok ()

/-- Model of Chroma similarity_search with a metadata filter: the ranking
of candidates by embedding similarity is a black box (rank), but the
filter restricts the candidate set to the stored chunks whose fuente
metadata equals the filter value, and at most k results are returned. -/
def chromaFilterSearch (store : List Document)
    (rank : String → List Document → List Document)
    (pregunta : String) (k : Nat) (filtro : String) : List Document :=
  (rank pregunta (store.filter fun d => d.fuente = some filtro)).take k

/-- A sample stored chunk, used to evaluate the service on concrete inputs. -/
def docEjemplo : Document :=
  { page_content := "Texto del PDOT de Paltas sobre el agua.",
    fuente := some "paltas",
    archivo_origen := some "PDOT_Paltas.pdf" }

/-- A sample filesystem/loader for concrete indexer runs: only the Paltas
PDF exists and loads as a single page; every other mapped file is missing. -/
def fsEjemplo : String → Option (List Document) :=
  fun nombre =>
    if nombre = "PDOT_Paltas.pdf" then some [{ page_content := "pagina de Paltas" }]
    else none

end PDOT

namespace PDOT

/- ===================== Helper lemmas ===================== -/

/-- With both components loaded and an empty normalised entidad the handler
answers HTTP 400. -/
theorem extraer_contexto_vacio
    (search : String → Nat → String → Except PyError (List Document))
    (llmF : String → String) (tbf : PyError → String) (s : SolicitudContexto)
    (h : normalizar s.entidad = "") :
    extraer_contexto (some search) (some llmF) tbf s =
      Respuesta.httpError 400 "Error: El campo 'entidad' no puede estar vacío." := by
  simp [extraer_contexto, h]

/-- Every chunk the indexer collects carries as fuente one of the labels of
the map it was run over. -/
theorem fuente_mem_of_mem_indexarFragmentos
    (fs : String → Option (List Document)) (split : List Document → List Document) :
    ∀ (mapa : List (String × String)) (d : Document),
      d ∈ indexarFragmentos fs split mapa → ∃ p ∈ mapa, d.fuente = some p.1 := by
  intro mapa
  induction mapa with
  | nil => intro d hd; simp [indexarFragmentos] at hd
  | cons cab resto ih =>
      intro d hd
      obtain ⟨etiqueta, nombre⟩ := cab
      simp only [indexarFragmentos, List.mem_append] at hd
      cases hd with
      | inl h =>
          refine ⟨(etiqueta, nombre), List.mem_cons_self _ _, ?_⟩
          simp only [procesarEntrada] at h
          cases hfs : fs (pyStrip nombre) with
          | none => simp only [hfs] at h; simp at h
          | some documentos =>
              simp only [hfs, List.mem_map] at h
              obtain ⟨frag, _, hfrag⟩ := h
              rw [← hfrag]
      | inr h =>
          obtain ⟨p, hp, hpf⟩ := ih d h
          exact ⟨p, List.mem_cons_of_mem _ hp, hpf⟩


/- ===================== Claim theorems ===================== -/

/-- Claim C2: for all requests with an empty entidad (after lowercasing and
stripping whitespace), the POST /extraer-contexto-pdot endpoint returns
HTTP status 400, whenever the components loaded at startup are present. -/
theorem C2_entidad_vacia_400
    (search : String → Nat → String → Except PyError (List Document))
    (llmF : String → String) (tbf : PyError → String) (s : SolicitudContexto)
    (h : normalizar s.entidad = "") :
    extraer_contexto (some search) (some llmF) tbf s =
      Respuesta.httpError 400 "Error: El campo 'entidad' no puede estar vacío." :=
  extraer_contexto_vacio search llmF tbf s h

/-- Witness for C2 at a concrete whitespace-only request. -/
theorem C2_entidad_vacia_400_witness :
    normalizar "   " = "" ∧
    extraer_contexto (some fun _ _ _ => Except.ok []) (some fun p => p)
        (fun e => e.msg) ⟨"q", "   "⟩ =
      Respuesta.httpError 400 "Error: El campo 'entidad' no puede estar vacío." :=
  ⟨by decide, C2_entidad_vacia_400 _ _ _ _ (by decide)⟩

/-- Claim C3: for all requests with a non-empty normalised entidad for which
the filtered similarity search returns no chunks, the service answers with
the fixed no-information message, and its answer does not depend on the
generation model (so the model is not invoked). -/
theorem C3_sin_resultados
    (search : String → Nat → String → Except PyError (List Document))
    (llmF : String → String) (tbf : PyError → String) (s : SolicitudContexto)
    (hne : normalizar s.entidad ≠ "")
    (hvacio : search s.pregunta 10 (normalizar s.entidad) = Except.ok []) :
    extraer_contexto (some search) (some llmF) tbf s =
      Respuesta.ok (mensajeSinInfo (normalizar s.entidad))
    ∧ ∀ llmG : String → String,
        extraer_contexto (some search) (some llmG) tbf s =
          extraer_contexto (some search) (some llmF) tbf s := by
  constructor
  · simp [extraer_contexto, hne, hvacio]
  · intro llmG
    simp [extraer_contexto, hne, hvacio]

/-- Witness for C3 at a concrete request whose entity matches nothing. -/
theorem C3_sin_resultados_witness :
    normalizar "Paltas" ≠ "" ∧
    (fun (_ : String) (_ : Nat) (_ : String) =>
        (Except.ok [] : Except PyError (List Document))) "q" 10 (normalizar "Paltas") =
      Except.ok [] ∧
    extraer_contexto (some fun _ _ _ => Except.ok []) (some fun p => p)
        (fun e => e.msg) ⟨"q", "Paltas"⟩ =
      Respuesta.ok (mensajeSinInfo "paltas") := by
  refine ⟨by decide, rfl, ?_⟩
  exact (C3_sin_resultados (fun _ _ _ => Except.ok []) (fun p => p)
    (fun e => e.msg) ⟨"q", "Paltas"⟩ (by decide) rfl).1


/-- Claim C10: the entidad field is lowercased and stripped before
validation, filtering and message construction, so two requests with the
same pregunta whose entidad fields normalise identically (differing only
in letter case or surrounding whitespace) are processed identically; and a
request whose entidad normalises to the empty string (in particular a
whitespace-only entidad) is treated as empty and rejected with HTTP 400
when the components are loaded. -/
theorem C10_normalizacion_entidad
    (db : Option (String → Nat → String → Except PyError (List Document)))
    (llm : Option (String → String)) (tbf : PyError → String)
    (s1 s2 : SolicitudContexto)
    (hp : s1.pregunta = s2.pregunta)
    (he : normalizar s1.entidad = normalizar s2.entidad) :
    extraer_contexto db llm tbf s1 = extraer_contexto db llm tbf s2
    ∧ ∀ (search : String → Nat → String → Except PyError (List Document))
        (llmF : String → String) (s : SolicitudContexto),
        normalizar s.entidad = "" →
        extraer_contexto (some search) (some llmF) tbf s =
          Respuesta.httpError 400 "Error: El campo 'entidad' no puede estar vacío." := by
  constructor
  · unfold extraer_contexto
    rw [hp, he]
  · intro search llmF s h
    exact extraer_contexto_vacio search llmF tbf s h

/-- Witness for C10: same question with entidad written as "  PALTAS " and
as "paltas". -/
theorem C10_normalizacion_entidad_witness :
    (⟨"q", "  PALTAS "⟩ : SolicitudContexto).pregunta =
      (⟨"q", "paltas"⟩ : SolicitudContexto).pregunta ∧
    normalizar "  PALTAS " = normalizar "paltas" ∧
    extraer_contexto (some fun _ _ _ => Except.ok [docEjemplo]) (some fun p => p)
        (fun e => e.msg) ⟨"q", "  PALTAS "⟩ =
      extraer_contexto (some fun _ _ _ => Except.ok [docEjemplo]) (some fun p => p)
        (fun e => e.msg) ⟨"q", "paltas"⟩ := by
  refine ⟨rfl, by decide, ?_⟩
  exact (C10_normalizacion_entidad (some fun _ _ _ => Except.ok [docEjemplo])
    (some fun p => p) (fun e => e.msg) ⟨"q", "  PALTAS "⟩ ⟨"q", "paltas"⟩
    rfl (by decide)).1

/-- Claim C8: with the components loaded and a non-empty normalised
entidad, whenever processing raises an exception inside the try block —
either the similarity search raising, or the NameError raised on line 108
by reading the undefined name prompt_sintesis — the service returns HTTP
500 whose detail is the str(e) text followed by a newline and the
traceback text. -/
theorem C8_excepcion_500_traceback
    (search : String → Nat → String → Except PyError (List Document))
    (llmF : String → String) (tbf : PyError → String) (s : SolicitudContexto)
    (hne : normalizar s.entidad ≠ "") :
    (∀ e : PyError, search s.pregunta 10 (normalizar s.entidad) = Except.error e →
        extraer_contexto (some search) (some llmF) tbf s =
          Respuesta.httpError 500
            ("Error interno del servidor: " ++ e.msg ++ "\n" ++ tbf e))
    ∧ (∀ ds : List Document,
        search s.pregunta 10 (normalizar s.entidad) = Except.ok ds → ds ≠ [] →
        extraer_contexto (some search) (some llmF) tbf s =
          Respuesta.httpError 500
            ("Error interno del servidor: name 'prompt_sintesis' is not defined\n" ++
              tbf ⟨"name 'prompt_sintesis' is not defined"⟩)) := by
  constructor
  · intro e he
    simp [extraer_contexto, hne, he, detalle500]
  · intro ds hds hne2
    cases ds with
    | nil => exact absurd rfl hne2
    | cons d resto =>
        simp [extraer_contexto, hne, hds, detalle500, lookupName, List.lookup]

/-- Witness for C8: a search that raises, at a concrete request. -/
theorem C8_excepcion_500_traceback_witness :
    normalizar "paltas" ≠ "" ∧
    (fun (_ : String) (_ : Nat) (_ : String) =>
        (Except.error ⟨"boom"⟩ : Except PyError (List Document))) "q" 10
        (normalizar "paltas") = Except.error ⟨"boom"⟩ ∧
    extraer_contexto (some fun _ _ _ => Except.error ⟨"boom"⟩) (some fun p => p)
        (fun e => "Traceback: " ++ e.msg) ⟨"q", "paltas"⟩ =
      Respuesta.httpError 500
        ("Error interno del servidor: " ++ "boom" ++ "\n" ++ "Traceback: boom") := by
  refine ⟨by decide, rfl, ?_⟩
  exact (C8_excepcion_500_traceback (fun _ _ _ => Except.error ⟨"boom"⟩)
    (fun p => p) (fun e => "Traceback: " ++ e.msg) ⟨"q", "paltas"⟩
    (by decide)).1 ⟨"boom"⟩ rfl

/-- Claim C1, the observed behaviour: at a concrete request with a
non-empty entity whose filtered search returns one chunk, the handler does
NOT return generated text; line 108 reads the undefined name
prompt_sintesis (the prompt was assigned to prompt_sinitesis on line 93),
so a NameError is raised and the service answers HTTP 500 with the
traceback in the body. -/
theorem C1_bug_nameerror :
    extraer_contexto
      (some fun _ _ filtro => Except.ok (if filtro = "paltas" then [docEjemplo] else []))
      (some fun _ => "respuesta sintetizada")
      (fun e => "Traceback (most recent call last):\n" ++ e.msg)
      ⟨"¿Qué dice sobre el agua?", "Paltas"⟩ =
      Respuesta.httpError 500
        ("Error interno del servidor: name 'prompt_sintesis' is not defined\n" ++
          "Traceback (most recent call last):\nname 'prompt_sintesis' is not defined") := by
  decide


/-- Skipped entries (missing file or loader failure) contribute nothing:
the collected fragments equal those of the loadable entries alone. -/
theorem indexarFragmentos_filter_isSome
    (fs : String → Option (List Document)) (split : List Document → List Document) :
    ∀ mapa : List (String × String),
      indexarFragmentos fs split mapa =
        indexarFragmentos fs split (mapa.filter fun p => (fs (pyStrip p.2)).isSome) := by
  intro mapa
  induction mapa with
  | nil => rfl
  | cons cab resto ih =>
      obtain ⟨e, n⟩ := cab
      cases hn : fs (pyStrip n) with
      | none => simp [indexarFragmentos, procesarEntrada, List.filter_cons, hn, ih]
      | some docs => simp [indexarFragmentos, procesarEntrada, List.filter_cons, hn, ih]

/-- If every mapped file is missing or fails to load, no fragment is
collected. -/
theorem indexarFragmentos_eq_nil
    (fs : String → Option (List Document)) (split : List Document → List Document) :
    ∀ mapa : List (String × String), (∀ p ∈ mapa, fs (pyStrip p.2) = none) →
      indexarFragmentos fs split mapa = [] := by
  intro mapa
  induction mapa with
  | nil => intro _; rfl
  | cons cab resto ih =>
      intro h
      obtain ⟨e, n⟩ := cab
      have hn := h (e, n) (List.mem_cons_self _ _)
      simp only at hn
      simp [indexarFragmentos, procesarEntrada, hn,
        ih fun p hp => h p (List.mem_cons_of_mem _ hp)]

/-- Claim C4: rebuilding the index is idempotent. With the key present, a
second indexer run on top of the first run's disk state gives exactly the
same outcome as the first, and any store a run leaves on disk holds
exactly that run's collected fragments, because the old directory is
removed before the new one is written on every run. -/
theorem C4_reindexado_idempotente
    (k : Option String) (fs : String → Option (List Document))
    (split : List Document → List Document) (disco : Option (List Document))
    (hk : truthy k = true) :
    runIndexer k fs split ((runIndexer k fs split disco).1) = runIndexer k fs split disco
    ∧ ∀ chunks : List Document, (runIndexer k fs split disco).1 = some chunks →
        chunks = indexarFragmentos fs split MAPA_DE_PDOTS := by
  constructor
  · by_cases h : (indexarFragmentos fs split MAPA_DE_PDOTS).isEmpty = true
    · simp [runIndexer, hk, h]
    · simp [runIndexer, hk, h]
  · intro chunks hch
    by_cases h : (indexarFragmentos fs split MAPA_DE_PDOTS).isEmpty = true
    · simp [runIndexer, hk, h] at hch
    · simp [runIndexer, hk, h] at hch
      exact hch.symm

/-- Witness for C4 at a concrete key, filesystem and prior disk state. -/
theorem C4_reindexado_idempotente_witness :
    truthy (some "clave") = true ∧
    (runIndexer (some "clave") fsEjemplo (fun l => l)
        ((runIndexer (some "clave") fsEjemplo (fun l => l) (some [docEjemplo])).1) =
      runIndexer (some "clave") fsEjemplo (fun l => l) (some [docEjemplo])
    ∧ ∀ chunks : List Document,
        (runIndexer (some "clave") fsEjemplo (fun l => l) (some [docEjemplo])).1 =
          some chunks →
        chunks = indexarFragmentos fsEjemplo (fun l => l) MAPA_DE_PDOTS) :=
  ⟨by decide, C4_reindexado_idempotente (some "clave") fsEjemplo (fun l => l)
    (some [docEjemplo]) (by decide)⟩

/-- Claim C5: entries of the static map whose file is missing or fails to
load are skipped and contribute nothing — the collected fragments are those
of the loadable entries alone — and such skips do not abort the run:
whenever the remaining entries produce at least one fragment, the indexer
completes successfully, writing exactly the collected fragments. -/
theorem C5_entradas_faltantes_saltadas
    (fs : String → Option (List Document)) (split : List Document → List Document)
    (disco : Option (List Document)) (k : Option String)
    (hk : truthy k = true) :
    indexarFragmentos fs split MAPA_DE_PDOTS =
      indexarFragmentos fs split
        (MAPA_DE_PDOTS.filter fun p => (fs (pyStrip p.2)).isSome)
    ∧ (indexarFragmentos fs split MAPA_DE_PDOTS ≠ [] →
        runIndexer k fs split disco =
          (some (indexarFragmentos fs split MAPA_DE_PDOTS), true)) := by
  refine ⟨indexarFragmentos_filter_isSome fs split MAPA_DE_PDOTS, ?_⟩
  intro hne
  have h : (indexarFragmentos fs split MAPA_DE_PDOTS).isEmpty = false := by
    rcases hl : indexarFragmentos fs split MAPA_DE_PDOTS with _ | ⟨d, ds⟩
    · exact absurd hl hne
    · rfl
  simp [runIndexer, hk, h]

/-- Witness for C5: three of the four mapped files are missing, the run
still succeeds with the fragments of the one loadable file. -/
theorem C5_entradas_faltantes_saltadas_witness :
    truthy (some "clave") = true ∧
    (indexarFragmentos fsEjemplo (fun l => l) MAPA_DE_PDOTS =
      indexarFragmentos fsEjemplo (fun l => l)
        (MAPA_DE_PDOTS.filter fun p => (fsEjemplo (pyStrip p.2)).isSome)
    ∧ (indexarFragmentos fsEjemplo (fun l => l) MAPA_DE_PDOTS ≠ [] →
        runIndexer (some "clave") fsEjemplo (fun l => l) none =
          (some (indexarFragmentos fsEjemplo (fun l => l) MAPA_DE_PDOTS), true))) :=
  ⟨by decide, C5_entradas_faltantes_saltadas fsEjemplo (fun l => l) none
    (some "clave") (by decide)⟩

/-- Claim C9: the old store directory is removed before any input file is
examined, so a run (with the key present) in which every mapped file is
missing or fails to load ends fatally with no vector store on disk,
whatever store existed before. -/
theorem C9_borrado_antes_de_leer
    (k : Option String) (fs : String → Option (List Document))
    (split : List Document → List Document) (disco : Option (List Document))
    (hk : truthy k = true)
    (hfs : ∀ p ∈ MAPA_DE_PDOTS, fs (pyStrip p.2) = none) :
    runIndexer k fs split disco = (none, false) := by
  have h := indexarFragmentos_eq_nil fs split MAPA_DE_PDOTS hfs
  simp [runIndexer, hk, h]

/-- Witness for C9: every file missing, a prior store on disk, the run
fails and the prior store is gone. -/
theorem C9_borrado_antes_de_leer_witness :
    truthy (some "clave") = true ∧
    (∀ p ∈ MAPA_DE_PDOTS,
        (fun (_ : String) => (none : Option (List Document))) (pyStrip p.2) = none) ∧
    runIndexer (some "clave") (fun _ => none) (fun l => l) (some [docEjemplo]) =
      (none, false) :=
  ⟨by decide, fun _ _ => rfl,
    C9_borrado_antes_de_leer (some "clave") (fun _ => none) (fun l => l)
      (some [docEjemplo]) (by decide) (fun _ _ => rfl)⟩

/-- Claim C7: both secrets are read from the process environment; if either
one is absent the service's startup event raises the fatal missing-keys
error, and (for the Google key) the indexer likewise stops without
touching the disk. -/
theorem C7_claves_requeridas
    (g o : Option String) (dirExists : Bool)
    (fs : String → Option (List Document)) (split : List Document → List Document)
    (disco : Option (List Document))
    (h : g = none ∨ o = none) :
    startup_event g o dirExists =
      Except.error
        "!!! ERROR FATAL: Faltan claves (GOOGLE o OPENAI) en las variables de entorno."
    ∧ (g = none → runIndexer g fs split disco = (disco, false)) := by
  constructor
  · rcases h with hg | ho
    · simp [startup_event, hg, truthy]
    · simp [startup_event, ho, truthy]
  · intro hg
    simp [runIndexer, hg, truthy]

/-- Witness for C7 with the Google key absent. -/
theorem C7_claves_requeridas_witness :
    ((none : Option String) = none ∨ (some "sk" : Option String) = none) ∧
    (startup_event none (some "sk") true =
      Except.error
        "!!! ERROR FATAL: Faltan claves (GOOGLE o OPENAI) en las variables de entorno."
    ∧ ((none : Option String) = none →
        runIndexer none fsEjemplo (fun l => l) (some [docEjemplo]) =
          (some [docEjemplo], false))) :=
  ⟨Or.inl rfl, C7_claves_requeridas none (some "sk") true fsEjemplo (fun l => l)
    (some [docEjemplo]) (Or.inl rfl)⟩

/-- Claim C6: for a request whose normalised entidad is none of the labels
of the hard-coded map, the metadata-filtered retrieval over a store built
by the indexer finds nothing — every stored chunk carries a mapped label —
and the service answers with the no-information message, not an error
status. The ranking of the vector store is a black box constrained only to
choose among the filtered candidates. -/
theorem C6_etiqueta_desconocida
    (fs : String → Option (List Document)) (split : List Document → List Document)
    (rank : String → List Document → List Document)
    (llmF : String → String) (tbf : PyError → String) (s : SolicitudContexto)
    (hrank : ∀ (p : String) (ds : List Document) (d : Document), d ∈ rank p ds → d ∈ ds)
    (hne : normalizar s.entidad ≠ "")
    (hdesconocida : ∀ p ∈ MAPA_DE_PDOTS, p.1 ≠ normalizar s.entidad) :
    extraer_contexto
      (some fun p k f =>
        Except.ok (chromaFilterSearch (indexarFragmentos fs split MAPA_DE_PDOTS) rank p k f))
      (some llmF) tbf s =
      Respuesta.ok (mensajeSinInfo (normalizar s.entidad)) := by
  have hfiltro :
      (indexarFragmentos fs split MAPA_DE_PDOTS).filter
        (fun d => d.fuente = some (normalizar s.entidad)) = [] := by
    rw [List.filter_eq_nil_iff]
    intro d hd
    obtain ⟨p, hp, hpf⟩ :=
      fuente_mem_of_mem_indexarFragmentos fs split MAPA_DE_PDOTS d hd
    simp only [decide_eq_true_eq]
    intro hcontra
    exact hdesconocida p hp (by rw [hpf] at hcontra; exact Option.some.inj hcontra)
  have hbusqueda : chromaFilterSearch (indexarFragmentos fs split MAPA_DE_PDOTS) rank
      s.pregunta 10 (normalizar s.entidad) = [] := by
    unfold chromaFilterSearch
    rw [hfiltro]
    have hr0 : rank s.pregunta [] = [] := by
      rcases hr : rank s.pregunta [] with _ | ⟨d, ds⟩
      · rfl
      · exact absurd (hrank s.pregunta [] d (by rw [hr]; exact List.mem_cons_self _ _))
          (List.not_mem_nil d)
    rw [hr0]
    simp
  simp [extraer_contexto, hne, hbusqueda]

/-- Witness for C6: the identity ranking over the store indexed from the
sample filesystem, queried with the unknown entity Quito. -/
theorem C6_etiqueta_desconocida_witness :
    (∀ (p : String) (ds : List Document) (d : Document),
        d ∈ (fun (_ : String) (l : List Document) => l) p ds → d ∈ ds) ∧
    normalizar "Quito" ≠ "" ∧
    (∀ p ∈ MAPA_DE_PDOTS, p.1 ≠ normalizar "Quito") ∧
    extraer_contexto
      (some fun p k f =>
        Except.ok (chromaFilterSearch
          (indexarFragmentos fsEjemplo (fun l => l) MAPA_DE_PDOTS)
          (fun _ l => l) p k f))
      (some fun p => p) (fun e => e.msg) ⟨"q", "Quito"⟩ =
      Respuesta.ok (mensajeSinInfo "quito") := by
  refine ⟨fun _ _ _ h => h, by decide, by decide, ?_⟩
  have h := C6_etiqueta_desconocida fsEjemplo (fun l => l) (fun _ l => l)
    (fun p => p) (fun e => e.msg) ⟨"q", "Quito"⟩
    (fun _ _ _ h => h) (by decide) (by decide)
  simpa using h

end PDOT
